import Mathlib

/-!
# Verification of the bookshelf-page pagination plugin

Shallow embedding of `src/index.js` of the `bookshelf-page` repository.

Modelling conventions:
* JS strings are lists of characters (`JSStr`); the empty list plays the
  role of the empty (falsy) string.
* The pagination options `limit`, `page`, `offset` are JS values embedded
  as `JSNum`: absent (`undef`), an integer number, or a value whose
  `parseInt` is `NaN` (`nonNumeric`).
* The knex query-builder state accumulated by the caller is a list of
  `Statement`s (as in knex's `qb._statements`); `limit`/`offset` live in
  their own slots of the builder, as in knex's `_single`.
* Promises are `Except`: `Promise.join` of bluebird becomes a match on two
  `Except` values, rejecting as soon as either side rejects.
* JS `Math.floor(o / l)` on a non-negative numerator is integer floor
  division; the one place the source can divide by zero (limit resolved to
  `0`) would produce the non-finite number `Infinity` in JS, which the
  embedding marks with `none`.
-/

abbrev JSStr := List Char

/-- A JS value supplied for one of the numeric pagination options. -/
inductive JSNum where
  | undef
  | int (n : Int)
  | nonNumeric
deriving DecidableEq, Repr

/-- `parseInt(v)`: `none` is `NaN`. -/
def parseIntJS : JSNum → Option Int
  | .undef => none
  | .int n => some n
  | .nonNumeric => none

/-- JS truthiness of a pagination option value (`0` and `undefined` are
falsy; a non-numeric value such as a non-empty string is truthy — its
truthiness is never decisive in the source, since `Number.isInteger(NaN)`
is `false`). -/
def truthy : JSNum → Bool
  | .undef => false
  | .int n => n != 0
  | .nonNumeric => true

/-- `Number.isInteger(v) && v > 0` after `parseInt`. -/
def intAndPos : Option Int → Bool
  | some n => n > 0
  | none => false

/-- `Number.isInteger(v) && v >= 0` after `parseInt`. -/
def intAndNonneg : Option Int → Bool
  | some n => n ≥ 0
  | none => false

/-- The `_limit` resolution of `fetchPage`:
`if (Number.isNaN(_limit) || !Number.isInteger(_limit) || _limit < 0) _limit = 10`. -/
def resolveLimit (limit : JSNum) : Int :=
  match parseIntJS limit with
  | none => 10
  | some n => if n < 0 then 10 else n

/-- The canonical pagination window `fetchPage` resolves.
`page = none` encodes the non-finite JS number produced by
`Math.floor(offset / 0) + 1` when the resolved limit is `0`. -/
structure Window where
  limit : Int
  page : Option Int
  offset : Int
deriving DecidableEq, Repr

/-- The page/offset resolution of `fetchPage` (`src/index.js`, the three
`if`/`else if`/`else` branches after `_limit` is resolved). -/
def resolveWindow (limit page offset : JSNum) : Window :=
  let L := resolveLimit limit
  if truthy page && intAndPos (parseIntJS page) then
    -- Request by page number, calculate offset
    let p := (parseIntJS page).getD 0
    ⟨L, some p, L * (p - 1)⟩
  else if truthy offset && intAndNonneg (parseIntJS offset) then
    -- Request by offset, calculate page
    let o := (parseIntJS offset).getD 0
    ⟨L, if L = 0 then none else some (o / L + 1), o⟩
  else
    -- Defaults for erroneous or not defined page/offset
    ⟨L, some 1, 0⟩

/-- JS truthiness of an optional string argument (absent and the empty
string are falsy). -/
def strTruthy : Option JSStr → Bool
  | none => false
  | some s => !s.isEmpty

/-- `this.constructor.prototype.idAttribute ? ... : 'id'`: the model's
primary-key attribute, defaulting to `'id'` when absent or falsy. -/
def resolveIdAttribute : Option JSStr → JSStr
  | none => "id".data
  | some s => if s.isEmpty then "id".data else s

/-- Embedding of JS `String.prototype.startsWith`. -/
def jsStartsWith (s p : JSStr) : Bool :=
  p.isPrefixOf s

/-- One accumulated clause of the knex query builder (`qb._statements`).
The fields cover the shapes the plugin touches: `type` is the knex
statement type tag, `method`/`value`/`direction` the payload. -/
structure Statement where
  type : JSStr
  method : JSStr := []
  value : JSStr := []
  direction : JSStr := []
deriving DecidableEq, Repr

/-- `Model#orderBy` of the plugin: the order-by statement that
`qb.orderBy(_sort, _order)` pushes, computed from the model's
`tableName`/`idAttribute` and the `sort`/`order` arguments. -/
def orderByStatement (tableName : JSStr) (idAttribute : Option JSStr)
    (sort order : Option JSStr) : Statement :=
  let idAttr := resolveIdAttribute idAttribute
  let sortStr := sort.getD []
  let s0 : JSStr :=
    if strTruthy sort && jsStartsWith sortStr "-".data then sortStr.drop 1
    else if strTruthy sort then sortStr
    else idAttr
  let o : JSStr :=
    if strTruthy order then order.getD []
    else if strTruthy sort && jsStartsWith sortStr "-".data then "DESC".data
    else "ASC".data
  let s1 : JSStr :=
    if s0.contains '.' then s0 else tableName ++ ".".data ++ s0
  { type := "orderByBasic".data, value := s1, direction := o }

/-- The statement types `fetchPage`'s count query removes
(`notNeededQueries` in the source). -/
def notNeededQueries : List JSStr :=
  ["orderByBasic".data, "orderByRaw".data, "groupByBasic".data, "groupByRaw".data]

/-- The aggregate statement pushed by
`qb.countDistinct(tableName + '.' + idAttribute)`. -/
def countDistinctStatement (tableName : JSStr) (idAttribute : Option JSStr) : Statement :=
  { type := "aggregate".data, method := "countDistinct".data,
    value := tableName ++ ".".data ++ resolveIdAttribute idAttribute }

/-- lodash `_.remove(l, p)` mutates `l` to keep the elements NOT matching
`p`; this is the kept list. -/
def lodashRemoveKept (p : Statement → Bool) (l : List Statement) : List Statement :=
  l.filter fun st => !(p st)

/-- The statement list of the count query built by `fetchPage`: clone the
base builder state, push `countDistinct` on the qualified primary key, then
remove all order-by/group-by statements. -/
def countQueryStatements (base : List Statement) (tableName : JSStr)
    (idAttribute : Option JSStr) : List Statement :=
  lodashRemoveKept (fun st => notNeededQueries.contains st.type)
    (base ++ [countDistinctStatement tableName idAttribute])

/-- The fetch query built by `fetchPage`: the cloned base builder state
with the resolved window's limit and offset applied (knex keeps
limit/offset in dedicated slots, not in `_statements`). -/
structure FetchQuery where
  statements : List Statement
  limit : Int
  offset : Int
deriving DecidableEq, Repr

def fetchQueryOf (base : List Statement) (w : Window) : FetchQuery :=
  { statements := base, limit := w.limit, offset := w.offset }

/-- The metadata object the count promise resolves to: `total` is set only
when the count query returned exactly one row, from that row's `count`
column; otherwise it is left undefined (`none`). -/
structure Metadata where
  page : Option Int
  limit : Int
  offset : Int
  total : Option Int
deriving DecidableEq, Repr

/-- `count().then(result => ...)` of `fetchPage`: `countRows` lists the
`count` values of the rows the executed count query returned. -/
def countMetadata (w : Window) (countRows : List Int) : Metadata :=
  { page := w.page, limit := w.limit, offset := w.offset,
    total := match countRows with
      | [c] => some c
      | _ => none }

/-- The result envelope of `fetchPage`
(`Object.assign({rows}, metadata, {rowCount: rows.length})`). -/
structure PageResult (ρ : Type) where
  rows : List ρ
  page : Option Int
  limit : Int
  offset : Int
  total : Option Int
  rowCount : Nat
deriving DecidableEq, Repr

def mergeResult {ρ : Type} (rows : List ρ) (md : Metadata) : PageResult ρ :=
  { rows := rows, page := md.page, limit := md.limit, offset := md.offset,
    total := md.total, rowCount := rows.length }

/-- `Promise.join(paginate(), count()).then(...)`: the combined outcome of
the two concurrently executed promises; if either rejects, the whole call
rejects with that error. -/
def fetchPageOutcome {ε ρ : Type} (fetchRes : Except ε (List ρ))
    (countRes : Except ε Metadata) : Except ε (PageResult ρ) :=
  match fetchRes, countRes with
  | .error e, _ => .error e
  | .ok _, .error e => .error e
  | .ok rows, .ok md => .ok (mergeResult rows md)

/-! ## Helper lemmas on the parameter resolver -/

theorem resolveLimit_int_of_nonneg (l : Int) (hl : 0 ≤ l) :
    resolveLimit (.int l) = l := by
  simp only [resolveLimit, parseIntJS]
  omega

theorem resolveWindow_page_branch (lim off : JSNum) (p : Int) (hp : 0 < p) :
    resolveWindow lim (.int p) off
      = ⟨resolveLimit lim, some p, resolveLimit lim * (p - 1)⟩ := by
  simp only [resolveWindow]
  split
  · simp [parseIntJS]
  · rename_i hcond
    refine absurd ?_ hcond
    simp only [truthy, parseIntJS, intAndPos, Bool.and_eq_true, bne_iff_ne, ne_eq,
      decide_eq_true_eq]
    omega

theorem resolveWindow_offset_branch (lim : JSNum) (o : Int) (ho : 0 < o) :
    resolveWindow lim .undef (.int o)
      = ⟨resolveLimit lim,
          if resolveLimit lim = 0 then none else some (o / resolveLimit lim + 1),
          o⟩ := by
  simp only [resolveWindow]
  split
  · rename_i hcond
    simp [truthy] at hcond
  · split
    · simp [parseIntJS]
    · rename_i hcond
      refine absurd ?_ hcond
      simp only [truthy, parseIntJS, intAndNonneg, Bool.and_eq_true, bne_iff_ne, ne_eq,
        decide_eq_true_eq]
      omega

/-! ## Claims about the pagination parameter resolver -/

/-- Claim C2: with an integer `page ≥ 1` and an integer `limit ≥ 1`, the
resolved window's offset is `limit * (page - 1)`, and this offset is the
one the fetch query applies and the result metadata reports. -/
theorem c2_page_based_offset (l p : Int) (off : JSNum) (base : List Statement)
    (countRows : List Int) (hl : 1 ≤ l) (hp : 1 ≤ p) :
    (resolveWindow (.int l) (.int p) off).offset = l * (p - 1)
    ∧ (fetchQueryOf base (resolveWindow (.int l) (.int p) off)).offset = l * (p - 1)
    ∧ (countMetadata (resolveWindow (.int l) (.int p) off) countRows).offset
        = l * (p - 1) := by
  have hw := resolveWindow_page_branch (.int l) off p (by omega)
  have hL := resolveLimit_int_of_nonneg l (by omega)
  rw [hL] at hw
  refine ⟨?_, ?_, ?_⟩ <;> simp [hw, fetchQueryOf, countMetadata]

/-- Witness for C2 at `limit = 15`, `page = 3`: offset `30`. -/
theorem c2_page_based_offset_witness :
    (resolveWindow (.int 15) (.int 3) .undef).offset = 15 * (3 - 1)
    ∧ (fetchQueryOf [] (resolveWindow (.int 15) (.int 3) .undef)).offset = 15 * (3 - 1)
    ∧ (countMetadata (resolveWindow (.int 15) (.int 3) .undef) []).offset
        = 15 * (3 - 1) :=
  c2_page_based_offset 15 3 .undef [] [] (by decide) (by decide)

/-- Claim C3: with an integer `limit ≥ 1`, an integer `offset ≥ 0` and no
`page`, the resolved window's page is `offset / limit + 1` (floor
division). -/
theorem c3_offset_based_page (l o : Int) (hl : 1 ≤ l) (ho : 0 ≤ o) :
    (resolveWindow (.int l) .undef (.int o)).page = some (o / l + 1) := by
  by_cases h0 : o = 0
  · subst h0
    have : resolveWindow (.int l) .undef (.int 0) = ⟨resolveLimit (.int l), some 1, 0⟩ := by
      simp [resolveWindow, truthy, parseIntJS]
    simp [this, Int.zero_ediv]
  · have hw := resolveWindow_offset_branch (.int l) o (by omega)
    have hL := resolveLimit_int_of_nonneg l (by omega)
    rw [hL] at hw
    rw [hw]
    simp only []
    rw [if_neg (by omega)]

/-- Witness for C3 at `limit = 15`, `offset = 30`: page `3`. -/
theorem c3_offset_based_page_witness :
    (resolveWindow (.int 15) .undef (.int 30)).page = some (30 / 15 + 1) :=
  c3_offset_based_page 15 30 (by decide) (by decide)

/-- Claim C5: when both a valid `page` (integer `≥ 1`) and a valid
`offset` (integer `≥ 0`) are supplied, the page wins: the window is
identical for any supplied offset, its offset is recomputed as
`resolvedLimit * (page - 1)`, and its page is the supplied page. -/
theorem c5_page_precedence (lim : JSNum) (p o o2 : Int)
    (hp : 1 ≤ p) (_ho : 0 ≤ o) (_ho2 : 0 ≤ o2) :
    resolveWindow lim (.int p) (.int o) = resolveWindow lim (.int p) (.int o2)
    ∧ (resolveWindow lim (.int p) (.int o)).offset = resolveLimit lim * (p - 1)
    ∧ (resolveWindow lim (.int p) (.int o)).page = some p := by
  have h1 := resolveWindow_page_branch lim (.int o) p (by omega)
  have h2 := resolveWindow_page_branch lim (.int o2) p (by omega)
  refine ⟨?_, ?_, ?_⟩ <;> simp [h1, h2]

/-- Witness for C5: page 3 beats supplied offsets 99 and 7. -/
theorem c5_page_precedence_witness :
    resolveWindow (.int 15) (.int 3) (.int 99) = resolveWindow (.int 15) (.int 3) (.int 7)
    ∧ (resolveWindow (.int 15) (.int 3) (.int 99)).offset = resolveLimit (.int 15) * (3 - 1)
    ∧ (resolveWindow (.int 15) (.int 3) (.int 99)).page = some 3 :=
  c5_page_precedence (.int 15) 3 99 7 (by decide) (by decide) (by decide)

/-- Claim C4 (code bug): the claim says any `limit` out of range for the
canonical window (which requires an integer `> 0`) is defaulted to `10`
under the lenient policy. The code only defaults `limit < 0`: a supplied
`limit = 0` is kept, and then an offset-based request divides by zero
(page becomes the non-finite JS number `Infinity`, here `none`). The
remaining parts of the claim hold: missing, non-numeric and negative
limits default to `10`, and with no pagination arguments the window is
`limit = 10, page = 1, offset = 0`. -/
theorem c4_zero_limit_not_defaulted :
    (resolveWindow (.int 0) .undef .undef).limit = 0
    ∧ (resolveWindow (.int 0) .undef (.int 5)).page = none
    ∧ resolveWindow .undef .undef .undef = ⟨10, some 1, 0⟩
    ∧ resolveWindow .nonNumeric .undef .undef = ⟨10, some 1, 0⟩
    ∧ (resolveWindow (.int (-3)) .undef .undef).limit = 10 := by
  decide

/-! ## Claims about the count query construction -/

/-- Claim C1: for every base builder state, the count query removes every
order-by and group-by statement (`orderByBasic`, `orderByRaw`,
`groupByBasic`, `groupByRaw`), keeps every other statement (joins, wheres)
in place and in order, and ends in the `countDistinct` aggregate on the
table-qualified primary key, with the id attribute defaulting to `id`. -/
theorem c1_count_query_shape (base : List Statement) (tableName : JSStr)
    (idAttribute : Option JSStr) :
    countQueryStatements base tableName idAttribute
        = base.filter (fun st => !(notNeededQueries.contains st.type))
          ++ [countDistinctStatement tableName idAttribute]
    ∧ (∀ st ∈ countQueryStatements base tableName idAttribute,
        notNeededQueries.contains st.type = false)
    ∧ (∀ st ∈ base, notNeededQueries.contains st.type = false →
        st ∈ countQueryStatements base tableName idAttribute)
    ∧ (countDistinctStatement tableName idAttribute).value
        = tableName ++ ".".data ++ resolveIdAttribute idAttribute
    ∧ resolveIdAttribute none = "id".data := by
  have ht : (countDistinctStatement tableName idAttribute).type = "aggregate".data := rfl
  have hcd : notNeededQueries.contains "aggregate".data = false := by decide
  refine ⟨?_, ?_, ?_, rfl, rfl⟩
  · simp only [countQueryStatements, lodashRemoveKept, List.filter_append]
    congr 1
  · intro st hst
    simp only [countQueryStatements, lodashRemoveKept, List.mem_filter] at hst
    simpa using hst.2
  · intro st hst hty
    simp only [countQueryStatements, lodashRemoveKept, List.mem_filter]
    exact ⟨List.mem_append_left _ hst, by simpa using hty⟩

/-- A concrete base builder state: a join, a where, an order-by and a
group-by, as in the README's example query. -/
def demoBase : List Statement :=
  [{ type := "join".data, value := "manufacturers".data },
   { type := "whereBasic".data, value := "manufacturers.country".data },
   { type := "orderByBasic".data, value := "cars.productionYear".data,
     direction := "DESC".data },
   { type := "groupByBasic".data, value := "cars.id".data }]

/-- Witness for C1: on `demoBase`, the join statement survives into the
count query. -/
theorem c1_count_query_shape_witness :
    ({ type := "join".data, value := "manufacturers".data } : Statement)
      ∈ countQueryStatements demoBase "cars".data none :=
  (c1_count_query_shape demoBase "cars".data none).2.2.1
    { type := "join".data, value := "manufacturers".data }
    (by decide) (by decide)

/-! ## Claims about Model#orderBy -/

theorem strTruthy_of_ne_nil (s : JSStr) (h : s ≠ []) : strTruthy (some s) = true := by
  cases s with
  | nil => exact absurd rfl h
  | cons a t => rfl

/-- Claim C7: for every model and every non-empty column name `c` not
starting with `-`, `orderBy('-' + c)` pushes exactly the same order-by
statement as `orderBy(c, 'DESC')`; with the order argument omitted, a
leading hyphen selects `DESC` and its absence selects `ASC`. -/
theorem c7_hyphen_is_desc (tableName : JSStr) (idAttribute : Option JSStr) (c : JSStr)
    (hne : c ≠ []) (hdash : jsStartsWith c "-".data = false) :
    orderByStatement tableName idAttribute (some ("-".data ++ c)) none
      = orderByStatement tableName idAttribute (some c) (some "DESC".data)
    ∧ (orderByStatement tableName idAttribute (some ("-".data ++ c)) none).direction
        = "DESC".data
    ∧ (orderByStatement tableName idAttribute (some c) none).direction = "ASC".data := by
  have h1 : strTruthy (some ('-' :: c)) = true := rfl
  have h2 : jsStartsWith ('-' :: c) ['-'] = true := by
    simp [jsStartsWith, List.isPrefixOf]
  have h3 : strTruthy (some c) = true := strTruthy_of_ne_nil c hne
  have h4 : jsStartsWith c ['-'] = false := hdash
  have h5 : strTruthy (some ("DESC".data)) = true := rfl
  have h6 : strTruthy (none : Option JSStr) = false := rfl
  refine ⟨?_, ?_, ?_⟩ <;> simp [orderByStatement, h1, h2, h3, h4, hdash, h5, h6]

/-- Witness for C7 at `c = "productionYear"`, table `cars`. -/
theorem c7_hyphen_is_desc_witness :
    orderByStatement "cars".data none (some ("-".data ++ "productionYear".data)) none
      = orderByStatement "cars".data none (some "productionYear".data) (some "DESC".data)
    ∧ (orderByStatement "cars".data none
        (some ("-".data ++ "productionYear".data)) none).direction = "DESC".data
    ∧ (orderByStatement "cars".data none (some "productionYear".data) none).direction
        = "ASC".data :=
  c7_hyphen_is_desc "cars".data none "productionYear".data (by decide) (by decide)

/-- Claim C8: a non-empty sort expression without a `.` separator is
emitted prefixed with the model's table name and a dot (after stripping a
leading hyphen); one already containing `.` is emitted unchanged (after
stripping a leading hyphen); in particular `orderBy('-productionYear')` on
a model with table `cars` emits `(cars.productionYear, DESC)`. -/
theorem c8_table_qualification (tableName : JSStr) (idAttribute : Option JSStr)
    (s : JSStr) (ord : Option JSStr) (hne : s ≠ []) :
    ((if jsStartsWith s "-".data then s.drop 1 else s).contains '.' = false →
      (orderByStatement tableName idAttribute (some s) ord).value
        = tableName ++ ".".data ++ (if jsStartsWith s "-".data then s.drop 1 else s))
    ∧ ((if jsStartsWith s "-".data then s.drop 1 else s).contains '.' = true →
      (orderByStatement tableName idAttribute (some s) ord).value
        = (if jsStartsWith s "-".data then s.drop 1 else s))
    ∧ orderByStatement "cars".data idAttribute (some "-productionYear".data) none
      = { type := "orderByBasic".data, value := "cars.productionYear".data,
          direction := "DESC".data } := by
  have h1 : strTruthy (some s) = true := strTruthy_of_ne_nil s hne
  refine ⟨?_, ?_, rfl⟩
  · intro hc
    cases hb : jsStartsWith s "-".data <;> simp [hb] at hc <;>
      simp [orderByStatement, h1, hb, hc]
  · intro hc
    cases hb : jsStartsWith s "-".data <;> simp [hb] at hc <;>
      simp [orderByStatement, h1, hb, hc]

/-- Witness for C8: `orderBy('color')` on table `cars` emits
`cars.color`; `orderBy('m.id')` is emitted unchanged. -/
theorem c8_table_qualification_witness :
    (orderByStatement "cars".data none (some "color".data) none).value
      = "cars".data ++ ".".data
        ++ (if jsStartsWith "color".data "-".data then List.drop 1 "color".data
            else "color".data)
    ∧ (orderByStatement "cars".data none (some "m.id".data) none).value
      = (if jsStartsWith "m.id".data "-".data then List.drop 1 "m.id".data
          else "m.id".data) :=
  ⟨(c8_table_qualification "cars".data none "color".data none (by decide)).1 (by decide),
   (c8_table_qualification "cars".data none "m.id".data none (by decide)).2.1 (by decide)⟩

/-- Claim C10: with a missing or empty sort argument, `orderBy` falls back
to the model's id attribute (default `id`), qualified with the table name,
ascending unless an explicit non-empty order argument is given. -/
theorem c10_missing_sort_defaults (tableName : JSStr) (idAttribute : Option JSStr)
    (ord : Option JSStr)
    (hdot : (resolveIdAttribute idAttribute).contains '.' = false) :
    orderByStatement tableName idAttribute none ord
      = orderByStatement tableName idAttribute (some []) ord
    ∧ (orderByStatement tableName idAttribute none ord).value
      = tableName ++ ".".data ++ resolveIdAttribute idAttribute
    ∧ (strTruthy ord = false →
        (orderByStatement tableName idAttribute none ord).direction = "ASC".data)
    ∧ (∀ o, ord = some o → o ≠ [] →
        (orderByStatement tableName idAttribute none ord).direction = o) := by
  have h6 : strTruthy (none : Option JSStr) = false := rfl
  have h7 : strTruthy (some ([] : JSStr)) = false := rfl
  have hdot' : ¬ ('.' ∈ resolveIdAttribute idAttribute) := by simpa using hdot
  refine ⟨?_, ?_, ?_, ?_⟩
  · simp [orderByStatement, h6, h7]
  · simp [orderByStatement, h6, hdot']
  · intro ho
    simp [orderByStatement, h6, ho]
  · intro o hoeq hone
    have hot : strTruthy (some o) = true := strTruthy_of_ne_nil o hone
    simp [orderByStatement, h6, hoeq, hot]

/-- Witness for C10: table `cars`, no id attribute, no sort, no order:
the emitted order-by is `(cars.id, ASC)`. -/
theorem c10_missing_sort_defaults_witness :
    orderByStatement "cars".data none none none
      = orderByStatement "cars".data none (some []) none
    ∧ (orderByStatement "cars".data none none none).value
      = "cars".data ++ ".".data ++ resolveIdAttribute none
    ∧ (strTruthy (none : Option JSStr) = false →
        (orderByStatement "cars".data none none none).direction = "ASC".data) :=
  have h := c10_missing_sort_defaults "cars".data none none (by decide)
  ⟨h.1, h.2.1, fun _ => h.2.2.1 rfl⟩

/-! ## Claims about the combined fetch/count outcome -/

/-- Counterexample to claim C6 as stated: when the count query returns
zero rows (and the fetch query returns zero rows, as the claim's scenario
has it), `fetchPage` resolves successfully, but the result's `total` is
left undefined (`none`), not set to `0`. -/
theorem c6_counterexample :
    fetchPageOutcome (ε := Unit) (.ok ([] : List Unit))
        (.ok (countMetadata (resolveWindow .undef .undef .undef) []))
      = .ok { rows := [], page := some 1, limit := 10, offset := 0,
              total := none, rowCount := 0 }
    ∧ (countMetadata (resolveWindow .undef .undef .undef) ([] : List Int)).total
        ≠ some 0 := by
  exact ⟨rfl, by decide⟩

/-- Claim C6 as amended: if the count query's execution returns zero rows,
`fetchPage` still succeeds (the combined promise resolves), but the
result's `total` field is left undefined rather than set to `0`, and its
rows and row count are those of the fetch query (`rowCount` is the number
of fetched rows, not forced to zero). -/
theorem c6_zero_count_rows_amended (w : Window) (rows : List Unit) :
    fetchPageOutcome (ε := Unit) (.ok rows) (.ok (countMetadata w []))
      = .ok { rows := rows, page := w.page, limit := w.limit, offset := w.offset,
              total := none, rowCount := rows.length } :=
  rfl

/-- Claim C9: if either the fetch promise or the count promise rejects,
the whole `fetchPage` call rejects with that error, and a successful
result always carries both the fetched rows and the count metadata —
never one without the other. -/
theorem c9_all_or_nothing (e : String) (cr : Except String Metadata)
    (rows : List Nat) (fr : Except String (List Nat)) (r : PageResult Nat) :
    fetchPageOutcome (ρ := Nat) (.error e) cr = .error e
    ∧ fetchPageOutcome (.ok rows) (.error e) = .error e
    ∧ (fetchPageOutcome fr cr = .ok r →
        ∃ rs md, fr = .ok rs ∧ cr = .ok md ∧ r = mergeResult rs md) := by
  refine ⟨rfl, rfl, ?_⟩
  intro h
  match fr, cr with
  | .error e', _ => simp [fetchPageOutcome] at h
  | .ok rs, .error e' => simp [fetchPageOutcome] at h
  | .ok rs, .ok md =>
    refine ⟨rs, md, rfl, rfl, ?_⟩
    simpa [fetchPageOutcome] using h.symm

/-- Witness for C9: a rejected fetch rejects the whole call, and a
successful call decomposes into its two successful halves. -/
theorem c9_all_or_nothing_witness :
    fetchPageOutcome (ε := String) (ρ := Nat) (.error "boom")
        (.ok (countMetadata ⟨10, some 1, 0⟩ [7])) = .error "boom"
    ∧ ∃ rs md, (Except.ok (ε := String) ([5] : List Nat)) = .ok rs
        ∧ (Except.ok (ε := String) (countMetadata ⟨10, some 1, 0⟩ [7])) = .ok md
        ∧ mergeResult [5] (countMetadata ⟨10, some 1, 0⟩ [7]) = mergeResult rs md := by
  have h := c9_all_or_nothing "boom" (.ok (countMetadata ⟨10, some 1, 0⟩ [7])) [5]
    (.ok [5]) (mergeResult [5] (countMetadata ⟨10, some 1, 0⟩ [7]))
  exact ⟨h.1, h.2.2 rfl⟩
